import Mathlib

set_option linter.unusedVariables false

/-!
Shallow embedding of the model-lifecycle and training-job orchestration layer
of the Photo-AI-Clone repository (files `api/training_service.py`,
`api/model_service.py`, `api/storage_service.py`, `api/config.py`,
`api/main.py`), together with theorems settling the specification claims.

Conventions of the embedding:
* JSON dictionaries with a fixed key schema become Lean structures; a key that
  may be absent becomes an `Option` field (`none` = key absent).
* The filesystem of per-training-job `metadata.json` files becomes an
  association list keyed by the `(user_id, model_identifier)` directory pair.
* Wall-clock timestamps (`datetime.now().isoformat()`) become an explicit
  `now : String` argument threaded to each operation that reads the clock.
* Python exceptions / fallible loads become `Except` / an oracle returning
  `Option String` (the raised message), and Python `if error:` truthiness is
  the test `error ≠ none ∧ error ≠ some ""`.
-/

/-! ## Association-list helpers (model of dict / keyed files on disk) -/

/-- Lookup in an association list (first binding wins). -/
def alistLookup {α β : Type} [DecidableEq α] : List (α × β) → α → Option β
  | [], _ => none
  | (k, w) :: rest, key => if k = key then some w else alistLookup rest key

/-- Insert-or-replace in an association list, preserving the position of an
existing binding (model of writing a keyed file / dict assignment). -/
def alistInsert {α β : Type} [DecidableEq α] : List (α × β) → α → β → List (α × β)
  | [], key, v => [(key, v)]
  | (k, w) :: rest, key, v =>
      if k = key then (key, v) :: rest else (k, w) :: alistInsert rest key v

/-! ## Configuration constants (`api/config.py`) -/

/-- `config.DEFAULT_MODEL_ID = str(BASE_DIR / "Aurel_diffusers")`; the runtime
base-directory prefix is abstracted into the literal. Only its inequality with
`FALLBACK_MODEL_ID` matters to the verified properties, which holds for every
possible base directory because the fallback is a fixed HuggingFace name. -/
def DEFAULT_MODEL_ID : String := "BASE_DIR/Aurel_diffusers"

/-- `config.FALLBACK_MODEL_ID = "runwayml/stable-diffusion-v1-5"`. -/
def FALLBACK_MODEL_ID : String := "runwayml/stable-diffusion-v1-5"

/-- `config.USER_MODELS` mapping. -/
def USER_MODELS : List (String × String) :=
  [("default", DEFAULT_MODEL_ID), ("user_123", DEFAULT_MODEL_ID)]

/-- `config.USERS_DIR = DATA_DIR / "users"`; the runtime prefix is abstracted. -/
def USERS_DIR : String := "data/users"

/-! ## Job metadata data model (`metadata.json` contents) -/

/-- The `custom_metadata` sub-dictionary of a training job's `metadata.json`,
restricted to the keys read or written by the job-tracking code paths
(`training_service.py` and the `/train/{id}/status` endpoint).  `none` models
an absent key.  The free-form hyperparameter entries written once at creation by
`main.train_model` (`num_train_epochs`, `learning_rate`, `train_batch_size`)
are never read back by the tracked operations and are omitted. -/
structure CustomMetadata where
  training_id : Option String := none
  status : Option String := none
  progress : Option Int := none
  message : Option String := none
  last_updated : Option String := none
  started_at : Option String := none
  completed_at : Option String := none
  error : Option String := none
deriving DecidableEq, Repr

/-- One entry of the `saved_images` manifest built by
`StorageService.save_training_images`. -/
structure SavedImage where
  filename : String
  original_filename : String
  size_bytes : Nat
  path : String
deriving DecidableEq, Repr

/-- The whole `metadata.json` document written by
`StorageService.save_training_images` at
`data/users/<user_id>/training_images/<model_identifier>/metadata.json`. -/
structure Metadata where
  user_id : String
  model_identifier : String
  created_at : String
  num_images : Nat
  total_size_bytes : Nat
  images : List SavedImage
  custom_metadata : CustomMetadata
deriving DecidableEq, Repr

/-- The in-memory `self.active_jobs[training_id]` dictionary written by
`TrainingService.update_training_status` (lines 131-138).  Note the key set:
it has no `error`, `started_at` or `completed_at` entry. -/
structure JobInfo where
  training_id : String
  status : String
  progress : Int
  message : String
  model_identifier : String
  user_id : String
deriving DecidableEq, Repr

/-- State of `TrainingService`: the durable store of `metadata.json` files
keyed by `(user_id, model_identifier)`, plus the in-memory active-jobs index
keyed by `training_id`. -/
structure ServiceState where
  store : List ((String × String) × Metadata)
  active_jobs : List (String × JobInfo)
deriving DecidableEq, Repr

/-! ## Durable paths (string renderings used in returned manifests) -/

/-- `data/users/<user_id>/training_images/<model_identifier>`. -/
def trainingDirPath (user_id model_identifier : String) : String :=
  USERS_DIR ++ "/" ++ user_id ++ "/training_images/" ++ model_identifier

/-- `<training_dir>/images`. -/
def imagesDirPath (user_id model_identifier : String) : String :=
  trainingDirPath user_id model_identifier ++ "/images"

/-! ## `StorageService.save_training_images` -/

/-- `Path(filename).suffix` of a plain file name (no directory separators):
the substring from the last dot `i` when `0 < i < len - 1`, else `""`. -/
def suffixChars (cs : List Char) : List Char :=
  let rev := cs.reverse
  let tailPart := rev.takeWhile (fun c => c ≠ '.')
  if tailPart.length = rev.length then []
  else if tailPart.length = 0 then []
  else if tailPart.length + 1 = rev.length then []
  else '.' :: tailPart.reverse

/-- `Path(filename).suffix` on strings. -/
def pathSuffix (name : String) : String := String.mk (suffixChars name.data)

/-- Python `f"{idx:03d}"` for a natural index. -/
def pad3 (n : Nat) : String :=
  if n < 10 then "00" ++ toString n
  else if n < 100 then "0" ++ toString n
  else toString n

/-- The `saved_images` manifest built by the save loop of
`save_training_images` (lines 89-110): each upload `(filename, content)` is
stored as `<model_identifier>_<idx:03d><suffix>`; only the byte-length of
`content` is observable in the metadata, so an upload is `(filename, size)`. -/
def mkSavedImages (user_id model_identifier : String)
    (images : List (String × Nat)) : List SavedImage :=
  images.enum.map (fun p =>
    let new_filename := model_identifier ++ "_" ++ pad3 p.1 ++ pathSuffix p.2.1
    { filename := new_filename
      original_filename := p.2.1
      size_bytes := p.2.2
      path := imagesDirPath user_id model_identifier ++ "/" ++ new_filename })

/-- Result dictionary returned by `save_training_images` (lines 131-137). -/
structure SaveResult where
  training_dir : String
  images_dir : String
  num_images : Nat
  total_size_bytes : Nat
  metadata_path : String
deriving DecidableEq, Repr

/-- The fresh `training_metadata` document built by `save_training_images`
(lines 113-121); `custom_metadata = metadata or {}` (Python falsy test:
`none` and the empty dict both yield the empty dict). -/
def buildTrainingMetadata (user_id model_identifier : String)
    (images : List (String × Nat)) (metadata : Option CustomMetadata)
    (now : String) : Metadata :=
  let saved := mkSavedImages user_id model_identifier images
  { user_id := user_id
    model_identifier := model_identifier
    created_at := now
    num_images := saved.length
    total_size_bytes := images.foldl (fun acc p => acc + p.2) 0
    images := saved
    custom_metadata := metadata.getD {} }

/-- `StorageService.save_training_images` (lines 64-137): writes the image
files, then unconditionally writes a fresh `metadata.json` at the target
`(user_id, model_identifier)` location — there is no existence check, so an
existing record at that location is replaced. -/
def save_training_images (store : List ((String × String) × Metadata))
    (user_id model_identifier : String) (images : List (String × Nat))
    (metadata : Option CustomMetadata) (now : String) :
    List ((String × String) × Metadata) × SaveResult :=
  let md := buildTrainingMetadata user_id model_identifier images metadata now
  (alistInsert store (user_id, model_identifier) md,
   { training_dir := trainingDirPath user_id model_identifier
     images_dir := imagesDirPath user_id model_identifier
     num_images := md.num_images
     total_size_bytes := md.total_size_bytes
     metadata_path := trainingDirPath user_id model_identifier ++ "/metadata.json" })

/-- The initial `training_metadata` dictionary assembled by `main.train_model`
(lines 306-312) before it calls `save_training_images`: `training_id` plus
`status = "pending"` (the hyperparameter entries are carried as free-form data, see
`CustomMetadata`). -/
def initialCustomMetadata (training_id : String) : CustomMetadata :=
  { training_id := some training_id, status := some "pending" }

/-! ## `TrainingService.update_training_status` -/

/-- The rewrite of the `custom_metadata` dictionary performed by
`update_training_status` (lines 108-124): always sets `status`, `progress`,
`message`, `last_updated`; sets `started_at` only on a `running` update when
the key is absent; sets `completed_at` on `completed`/`failed`; sets `error`
only when the argument is truthy (`if error:`). -/
def updatedCustomMetadata (cm0 : CustomMetadata) (status : String)
    (progress : Int) (message : String) (error : Option String)
    (now : String) : CustomMetadata :=
  let cm1 := { cm0 with
    status := some status, progress := some progress,
    message := some message, last_updated := some now }
  let cm2 :=
    if status = "running" ∧ cm1.started_at = none then
      { cm1 with started_at := some now }
    else cm1
  let cm3 :=
    if status = "completed" ∨ status = "failed" then
      { cm2 with completed_at := some now }
    else cm2
  match error with
  | none => cm3
  | some e => if e = "" then cm3 else { cm3 with error := some e }

/-- `TrainingService.update_training_status` (lines 75-140).  If the target
`metadata.json` does not exist the call logs and returns with no state change
at all.  Otherwise it read-modify-writes the durable record and then replaces
the in-memory `active_jobs[training_id]` entry.  Note that it never inspects
the current `status` stored in the record: there is no terminal-state check. -/
def update_training_status (s : ServiceState)
    (user_id model_identifier training_id status : String) (progress : Int)
    (message : String) (error : Option String) (now : String) : ServiceState :=
  match alistLookup s.store (user_id, model_identifier) with
  | none => s
  | some md =>
      let md' := { md with
        custom_metadata :=
          updatedCustomMetadata md.custom_metadata status progress message error now }
      { store := alistInsert s.store (user_id, model_identifier) md'
        active_jobs := alistInsert s.active_jobs training_id
          { training_id := training_id, status := status, progress := progress,
            message := message, model_identifier := model_identifier,
            user_id := user_id } }

/-- The `except`-handler update issued by `TrainingService.start_training`
(lines 255-263) and `TrainingService._train_dreambooth` (lines 618-626) when
the run raises: `status="failed", progress=0, message="Training failed",
error=str(e)`. -/
def fail_training_update (s : ServiceState)
    (user_id model_identifier training_id : String) (e : String)
    (now : String) : ServiceState :=
  update_training_status s user_id model_identifier training_id
    "failed" 0 "Training failed" (some e) now

/-! ## `TrainingService.get_training_status` -/

/-- The status dictionary as consumed by its sole reader,
`main.get_training_status`, which projects each key with `.get` (absent key =
`None` = `none` here).  The durable-scan branch (lines 62-71) includes
`started_at`/`completed_at` but builds no `error` key; the active-jobs branch
(lines 41-42) returns the `JobInfo` dict, which has none of the three. -/
structure StatusView where
  training_id : String
  status : String
  model_identifier : Option String
  user_id : Option String
  progress : Int
  message : String
  started_at : Option String
  completed_at : Option String
  error : Option String
deriving DecidableEq, Repr

/-- View of an `active_jobs` entry (lines 41-42): the keys `started_at`,
`completed_at` and `error` are absent from that dict. -/
def viewFromJob (j : JobInfo) : StatusView :=
  { training_id := j.training_id
    status := j.status
    model_identifier := some j.model_identifier
    user_id := some j.user_id
    progress := j.progress
    message := j.message
    started_at := none
    completed_at := none
    error := none }

/-- View built by the durable-store scan (lines 62-71): defaults
`status="unknown"`, `progress=0`, `message=""`; no `error` key is built. -/
def viewFromMetadata (training_id : String) (md : Metadata) : StatusView :=
  { training_id := training_id
    status := md.custom_metadata.status.getD "unknown"
    model_identifier := some md.model_identifier
    user_id := some md.user_id
    progress := md.custom_metadata.progress.getD 0
    message := md.custom_metadata.message.getD ""
    started_at := md.custom_metadata.started_at
    completed_at := md.custom_metadata.completed_at
    error := none }

/-- The durable-store scan of `get_training_status` (lines 45-71): first
record whose `custom_metadata.training_id` equals the query. -/
def scanStore (store : List ((String × String) × Metadata))
    (training_id : String) : Option StatusView :=
  match store.find? (fun e => e.2.custom_metadata.training_id == some training_id) with
  | some e => some (viewFromMetadata training_id e.2)
  | none => none

/-- `TrainingService.get_training_status` (lines 30-73): the in-memory
active-jobs index is consulted first; on a miss the durable store is scanned. -/
def get_training_status (s : ServiceState) (training_id : String) :
    Option StatusView :=
  match alistLookup s.active_jobs training_id with
  | some j => some (viewFromJob j)
  | none => scanStore s.store training_id

/-! ## `ModelService` (`api/model_service.py`) -/

/-- A loaded pipeline handle; `loaded_from` records which identifier
`StableDiffusionPipeline.from_pretrained` was given, the only observable
provenance of the handle. -/
structure Pipe where
  loaded_from : String
deriving DecidableEq, Repr

/-- `ModelService.get_model_id` (lines 30-40): `USER_MODELS.get(user_id,
DEFAULT_MODEL_ID)`. -/
def get_model_id (user_id : String) : String :=
  (alistLookup USER_MODELS user_id).getD DEFAULT_MODEL_ID

/-- Measure for the fallback recursion of `load_model`: the fallback
identifier itself never recurses. -/
def fallbackDepth (model_id : String) : Nat :=
  if model_id = FALLBACK_MODEL_ID then 0 else 1

/-- `ModelService.load_model` (lines 42-89).  The `attempt` oracle models one
`from_pretrained` call: `none` = success (yielding the handle loaded from that
identifier), `some e` = the raised message `e`.  On failure for a non-fallback
identifier the method recurses once on `FALLBACK_MODEL_ID`; on failure for the
fallback itself it raises `Failed to load model {model_id}: {e}`. -/
def load_model (attempt : String → Option String) (model_id : String) :
    Except String Pipe :=
  match attempt model_id with
  | none => Except.ok { loaded_from := model_id }
  | some e =>
      if h : model_id = FALLBACK_MODEL_ID then
        Except.error ("Failed to load model " ++ model_id ++ ": " ++ e)
      else
        load_model attempt FALLBACK_MODEL_ID
termination_by fallbackDepth model_id
decreasing_by simp [fallbackDepth, h]

/-- `ModelService.get_or_load_model` (lines 91-112): resolve the user's model
identifier, return the cached handle on a hit; on a miss load (with fallback)
and insert into the cache under the *resolved* identifier, returning the
handle together with that identifier. -/
def get_or_load_model (attempt : String → Option String)
    (cache : List (String × Pipe)) (user_id : String) :
    Except String (List (String × Pipe) × Pipe × String) :=
  let model_id := get_model_id user_id
  match alistLookup cache model_id with
  | some pipe => Except.ok (cache, pipe, model_id)
  | none =>
      match load_model attempt model_id with
      | Except.ok pipe =>
          Except.ok (alistInsert cache model_id pipe, pipe, model_id)
      | Except.error e => Except.error e

/-- `ModelService.clear_cache` (lines 161-168) on the cache component. -/
def clear_cache (_cache : List (String × Pipe)) : List (String × Pipe) := []

/-! ## Progress schedule emitted by `start_training` (DreamBooth path) -/

/-- Progress arguments of the in-loop updates of `_train_dreambooth`
(lines 559-572): at every `global_step` divisible by 10 the call
`update(... progress = 40 + int((global_step / num_steps) * 50))` is issued;
the float expression is modelled by exact natural division
`40 + global_step * 50 / num_steps`. -/
def dreamboothLoopProgress (num_steps : Nat) : List Nat :=
  (List.range num_steps).filterMap (fun i =>
    if (i + 1) % 10 = 0 then some (40 + (i + 1) * 50 / num_steps) else none)

/-- Progress arguments of every `status="running"` update issued, in program
order, by `start_training` (5, 10) followed by `_train_dreambooth`
(15, 20, 30, 40, the training loop, then 90 before saving). -/
def startTrainingRunningProgress (num_steps : Nat) : List Nat :=
  [5, 10, 15, 20, 30, 40] ++ dreamboothLoopProgress num_steps ++ [90]

/-- The full `(status, progress)` sequence of update calls on the successful
DreamBooth path: all the running updates, then the single terminal update
`status="completed", progress=100` (lines 599-606). -/
def startTrainingStatusUpdates (num_steps : Nat) : List (String × Nat) :=
  (startTrainingRunningProgress num_steps).map (fun p => ("running", p))
    ++ [("completed", 100)]

/-! ## Concrete states and oracles used by counterexamples and witnesses -/

/-- Durable record of a job that reached the terminal `completed` state. -/
def exCustomMetadataCompleted : CustomMetadata :=
  { training_id := some "train_ab12cd34", status := some "completed"
    progress := some 100, message := some "done", last_updated := some "T2"
    started_at := some "T1", completed_at := some "T2", error := none }

/-- `metadata.json` document around `exCustomMetadataCompleted`. -/
def exMetadataCompleted : Metadata :=
  { user_id := "user_123", model_identifier := "aurel_person", created_at := "T0"
    num_images := 10, total_size_bytes := 1000, images := []
    custom_metadata := exCustomMetadataCompleted }

/-- Service state holding only the completed job (fresh process: empty index). -/
def exStateCompleted : ServiceState :=
  { store := [(("user_123", "aurel_person"), exMetadataCompleted)], active_jobs := [] }

/-- Durable record of a job in state `running` with progress 50. -/
def exCustomMetadataRunning : CustomMetadata :=
  { training_id := some "train_ab12cd34", status := some "running"
    progress := some 50, message := some "Training epoch 3", last_updated := some "T1"
    started_at := some "T1", completed_at := none, error := none }

/-- `metadata.json` document around `exCustomMetadataRunning`. -/
def exMetadataRunning : Metadata :=
  { user_id := "user_123", model_identifier := "aurel_person", created_at := "T0"
    num_images := 10, total_size_bytes := 1000, images := []
    custom_metadata := exCustomMetadataRunning }

/-- Service state holding only the running job. -/
def exStateRunning : ServiceState :=
  { store := [(("user_123", "aurel_person"), exMetadataRunning)], active_jobs := [] }

/-- Durable record of a job that failed with a captured error description. -/
def exCustomMetadataFailed : CustomMetadata :=
  { training_id := some "train_ab12cd34", status := some "failed"
    progress := some 0, message := some "Training failed", last_updated := some "T2"
    started_at := some "T1", completed_at := some "T2", error := some "boom" }

/-- `metadata.json` document around `exCustomMetadataFailed`. -/
def exMetadataFailed : Metadata :=
  { user_id := "user_123", model_identifier := "aurel_person", created_at := "T0"
    num_images := 10, total_size_bytes := 1000, images := []
    custom_metadata := exCustomMetadataFailed }

/-- Service state after a restart: the failed job is only in the durable store. -/
def exStateFailed : ServiceState :=
  { store := [(("user_123", "aurel_person"), exMetadataFailed)], active_jobs := [] }

/-- A service state with nothing on disk and an empty index. -/
def emptyState : ServiceState := { store := [], active_jobs := [] }

/-- Load oracle: every `from_pretrained` call raises `boom`. -/
def attemptAlwaysFails : String → Option String := fun _ => some "boom"

/-- Load oracle: only the configured fallback identifier loads. -/
def attemptFallbackOnly : String → Option String :=
  fun id => if id = FALLBACK_MODEL_ID then none else some "not found"

/-- A cache already holding a handle for the default model identifier. -/
def cacheWithDefault : List (String × Pipe) :=
  [(DEFAULT_MODEL_ID, { loaded_from := DEFAULT_MODEL_ID })]

/-! ## Helper lemmas -/

theorem alistLookup_insert_self {α β : Type} [DecidableEq α]
    (l : List (α × β)) (k : α) (v : β) :
    alistLookup (alistInsert l k v) k = some v := by
  induction l with
  | nil => simp [alistInsert, alistLookup]
  | cons hd tl ih =>
      obtain ⟨k', w⟩ := hd
      by_cases h : k' = k
      · simp [alistInsert, alistLookup, h]
      · simp [alistInsert, alistLookup, h, ih]

/-- One-step characterisation of the `custom_metadata` rewrite. -/
theorem updatedCustomMetadata_eq (cm : CustomMetadata) (st : String) (p : Int)
    (msg : String) (err : Option String) (now : String) :
    updatedCustomMetadata cm st p msg err now =
      { training_id := cm.training_id
        status := some st
        progress := some p
        message := some msg
        last_updated := some now
        started_at :=
          if st = "running" ∧ cm.started_at = none then some now else cm.started_at
        completed_at :=
          if st = "completed" ∨ st = "failed" then some now else cm.completed_at
        error :=
          match err with
          | none => cm.error
          | some e => if e = "" then cm.error else some e } := by
  cases err with
  | none => dsimp only [updatedCustomMetadata]; split_ifs <;> rfl
  | some e => dsimp only [updatedCustomMetadata]; split_ifs <;> rfl

/-- `update_training_status` when the target `metadata.json` exists. -/
theorem update_training_status_found
    (s : ServiceState) (u m tid st : String) (p : Int) (msg : String)
    (err : Option String) (now : String) (md : Metadata)
    (h : alistLookup s.store (u, m) = some md) :
    update_training_status s u m tid st p msg err now =
      { store := alistInsert s.store (u, m)
          { md with custom_metadata :=
              updatedCustomMetadata md.custom_metadata st p msg err now }
        active_jobs := alistInsert s.active_jobs tid
          { training_id := tid, status := st, progress := p, message := msg
            model_identifier := m, user_id := u } } := by
  unfold update_training_status
  rw [h]

/-- `load_model` when the requested identifier loads. -/
theorem load_model_ok (attempt : String → Option String) (m : String)
    (h : attempt m = none) :
    load_model attempt m = Except.ok { loaded_from := m } := by
  unfold load_model
  rw [h]

/-- `load_model` recurses on the fallback when a non-fallback identifier
fails to load. -/
theorem load_model_fallback (attempt : String → Option String) (m e : String)
    (h : attempt m = some e) (hm : ¬m = FALLBACK_MODEL_ID) :
    load_model attempt m = load_model attempt FALLBACK_MODEL_ID := by
  conv_lhs => rw [load_model]
  rw [h]
  dsimp only
  rw [dif_neg hm]

/-- `load_model` raises when the fallback identifier itself fails to load. -/
theorem load_model_fallback_fails (attempt : String → Option String) (e : String)
    (h : attempt FALLBACK_MODEL_ID = some e) :
    load_model attempt FALLBACK_MODEL_ID =
      Except.error ("Failed to load model " ++ FALLBACK_MODEL_ID ++ ": " ++ e) := by
  conv_lhs => rw [load_model]
  rw [h]
  dsimp only
  rw [dif_pos rfl]

/-- `get_or_load_model` on a cache hit. -/
theorem get_or_load_model_hit (attempt : String → Option String)
    (cache : List (String × Pipe)) (u : String) (pipe : Pipe)
    (h : alistLookup cache (get_model_id u) = some pipe) :
    get_or_load_model attempt cache u = Except.ok (cache, pipe, get_model_id u) := by
  unfold get_or_load_model
  dsimp only
  rw [h]

/-- `get_or_load_model` on a cache miss with a successful load. -/
theorem get_or_load_model_miss (attempt : String → Option String)
    (cache : List (String × Pipe)) (u : String) (pipe : Pipe)
    (hmiss : alistLookup cache (get_model_id u) = none)
    (hload : load_model attempt (get_model_id u) = Except.ok pipe) :
    get_or_load_model attempt cache u =
      Except.ok (alistInsert cache (get_model_id u) pipe, pipe, get_model_id u) := by
  unfold get_or_load_model
  dsimp only
  rw [hmiss]
  dsimp only
  rw [hload]

/-! ## Claim C10 -/

/-- Claim C10: every `update_training_status` call whose target durable
`metadata.json` file does not exist returns without raising and leaves both
the durable store and the in-memory active-jobs index completely unchanged
(a silent logged no-op); in particular the in-memory index is never mutated
unless the durable write also happens. -/
theorem C10_missing_metadata_noop
    (s : ServiceState) (u m tid st : String) (p : Int) (msg : String)
    (err : Option String) (now : String)
    (h : alistLookup s.store (u, m) = none) :
    update_training_status s u m tid st p msg err now = s := by
  unfold update_training_status
  rw [h]

/-- Witness for C10 at a concrete empty state. -/
theorem C10_missing_metadata_noop_witness :
    alistLookup emptyState.store ("user_123", "aurel_person") = none ∧
    update_training_status emptyState "user_123" "aurel_person" "train_ab12cd34"
      "running" 5 "Initializing training environment..." none "T1" = emptyState :=
  ⟨rfl, C10_missing_metadata_noop emptyState "user_123" "aurel_person"
    "train_ab12cd34" "running" 5 "Initializing training environment..." none "T1" rfl⟩

/-! ## Claim C9 -/

/-- Claim C9: `started_at` is recorded exactly once.  On any `running` update,
if the durable record has no `started_at` yet it is set to the current time;
if the record already carries `started_at = ts` (a `running` re-entry) the
stored value stays `ts`, i.e. the new value is `started_at.getD now`. -/
theorem C9_started_at_recorded_once
    (s : ServiceState) (u m tid : String) (p : Int) (msg : String)
    (err : Option String) (now : String) (md : Metadata)
    (h : alistLookup s.store (u, m) = some md) :
    (alistLookup (update_training_status s u m tid "running" p msg err now).store
        (u, m)).map (fun r => r.custom_metadata.started_at)
      = some (some (md.custom_metadata.started_at.getD now)) := by
  rw [update_training_status_found s u m tid "running" p msg err now md h]
  cases hst : md.custom_metadata.started_at <;>
    simp [alistLookup_insert_self, updatedCustomMetadata_eq, hst]

/-- Witness for C9 at a running job that already has `started_at = "T1"`:
a re-entrant `running` update preserves it. -/
theorem C9_started_at_recorded_once_witness :
    alistLookup exStateRunning.store ("user_123", "aurel_person")
      = some exMetadataRunning ∧
    (alistLookup (update_training_status exStateRunning "user_123" "aurel_person"
        "train_ab12cd34" "running" 60 "Training epoch 4" none "T3").store
        ("user_123", "aurel_person")).map (fun r => r.custom_metadata.started_at)
      = some (some (exMetadataRunning.custom_metadata.started_at.getD "T3")) :=
  ⟨rfl, C9_started_at_recorded_once exStateRunning "user_123" "aurel_person"
    "train_ab12cd34" 60 "Training epoch 4" none "T3" exMetadataRunning rfl⟩

/-! ## Claim C1 -/

/-- Claim C1 counterexample: the claim asserts that an update on a job whose
status is terminal is rejected and changes nothing.  At this concrete state
the stored status is `completed`, yet a subsequent `running` update rewrites
the durable record's status to `running` — the state is not left identical. -/
theorem C1_terminal_update_rejected_counterexample :
    exCustomMetadataCompleted.status = some "completed" ∧
    (alistLookup (update_training_status exStateCompleted "user_123" "aurel_person"
        "train_ab12cd34" "running" 50 "late update" none "T3").store
        ("user_123", "aurel_person")).map (fun r => r.custom_metadata.status)
      = some (some "running") ∧
    update_training_status exStateCompleted "user_123" "aurel_person"
        "train_ab12cd34" "running" 50 "late update" none "T3" ≠ exStateCompleted := by
  refine ⟨rfl, by decide, by decide⟩

/-- Claim C1 as amended: `update_training_status` never inspects the stored
status, so a call arriving after a terminal (`completed` or `failed`) status
is not rejected — it overwrites `status`, `progress` and `message` in the
durable record and rewrites the in-memory active-jobs entry. -/
theorem C1_amended_terminal_update_applied
    (s : ServiceState) (u m tid st : String) (p : Int) (msg : String)
    (err : Option String) (now : String) (md : Metadata)
    (h : alistLookup s.store (u, m) = some md)
    (hterm : md.custom_metadata.status = some "completed"
      ∨ md.custom_metadata.status = some "failed") :
    (alistLookup (update_training_status s u m tid st p msg err now).store
        (u, m)).map (fun r =>
          (r.custom_metadata.status, r.custom_metadata.progress,
           r.custom_metadata.message))
      = some (some st, some p, some msg)
    ∧ alistLookup (update_training_status s u m tid st p msg err now).active_jobs
        tid
      = some { training_id := tid, status := st, progress := p, message := msg
               model_identifier := m, user_id := u } := by
  rw [update_training_status_found s u m tid st p msg err now md h]
  constructor
  · simp [alistLookup_insert_self, updatedCustomMetadata_eq]
  · exact alistLookup_insert_self ..

/-- Witness for the amended C1 at the concrete completed job. -/
theorem C1_amended_terminal_update_applied_witness :
    alistLookup exStateCompleted.store ("user_123", "aurel_person")
      = some exMetadataCompleted ∧
    ((alistLookup (update_training_status exStateCompleted "user_123" "aurel_person"
        "train_ab12cd34" "running" 50 "late update" none "T3").store
        ("user_123", "aurel_person")).map (fun r =>
          (r.custom_metadata.status, r.custom_metadata.progress,
           r.custom_metadata.message))
      = some (some "running", some 50, some "late update")
    ∧ alistLookup (update_training_status exStateCompleted "user_123" "aurel_person"
        "train_ab12cd34" "running" 50 "late update" none "T3").active_jobs
        "train_ab12cd34"
      = some { training_id := "train_ab12cd34", status := "running", progress := 50
               message := "late update", model_identifier := "aurel_person"
               user_id := "user_123" }) :=
  ⟨rfl, C1_amended_terminal_update_applied exStateCompleted "user_123" "aurel_person"
    "train_ab12cd34" "running" 50 "late update" none "T3" exMetadataCompleted
    rfl (Or.inl rfl)⟩

/-! ## Claim C2 -/

/-- Claim C2 counterexample: the claim asserts that the `running → failed`
transition leaves `progress` unchanged at its last value.  At this concrete
state the job is `running` with `progress = 50`, yet the orchestrator's
failure handler (which passes `progress=0`) stores `progress = 0`. -/
theorem C2_failure_preserves_progress_counterexample :
    exCustomMetadataRunning.status = some "running" ∧
    exCustomMetadataRunning.progress = some 50 ∧
    (alistLookup (fail_training_update exStateRunning "user_123" "aurel_person"
        "train_ab12cd34" "boom" "T2").store ("user_123", "aurel_person")).map
        (fun r => r.custom_metadata.progress)
      = some (some 0) := by
  refine ⟨rfl, rfl, by decide⟩

/-- Claim C2 as amended: on the `running → failed` transition the failure
handler forces `progress` to 0 (the last-held value is not preserved), sets
`message = "Training failed"`, captures the error description (whenever it is
non-empty — Python's `if error:` drops an empty description) and records
`completed_at`. -/
theorem C2_amended_failure_zeroes_progress
    (s : ServiceState) (u m tid e now : String) (md : Metadata)
    (h : alistLookup s.store (u, m) = some md) (he : ¬e = "") :
    (alistLookup (fail_training_update s u m tid e now).store (u, m)).map
        (fun r => (r.custom_metadata.status, r.custom_metadata.progress,
                   r.custom_metadata.message, r.custom_metadata.error,
                   r.custom_metadata.completed_at))
      = some (some "failed", some 0, some "Training failed", some e, some now) := by
  unfold fail_training_update
  rw [update_training_status_found s u m tid "failed" 0 "Training failed"
    (some e) now md h]
  simp [alistLookup_insert_self, updatedCustomMetadata_eq, he]

/-- Witness for the amended C2 at the concrete running job. -/
theorem C2_amended_failure_zeroes_progress_witness :
    (alistLookup exStateRunning.store ("user_123", "aurel_person")
        = some exMetadataRunning ∧ ¬"boom" = "") ∧
    (alistLookup (fail_training_update exStateRunning "user_123" "aurel_person"
        "train_ab12cd34" "boom" "T2").store ("user_123", "aurel_person")).map
        (fun r => (r.custom_metadata.status, r.custom_metadata.progress,
                   r.custom_metadata.message, r.custom_metadata.error,
                   r.custom_metadata.completed_at))
      = some (some "failed", some 0, some "Training failed", some "boom", some "T2") :=
  ⟨⟨rfl, by decide⟩, C2_amended_failure_zeroes_progress exStateRunning "user_123"
    "aurel_person" "train_ab12cd34" "boom" "T2" exMetadataRunning rfl (by decide)⟩

/-! ## Claim C4 -/

/-- Claim C4 counterexample: the claim asserts that `get_training_status` on a
failed job returns a record containing the captured error description.  At
this concrete state the durable record carries `error = "boom"`, yet the
lookup (served here by the durable-store scan, the index being empty) returns
a record whose `error` entry is absent. -/
theorem C4_error_returned_counterexample :
    exCustomMetadataFailed.status = some "failed" ∧
    exCustomMetadataFailed.error = some "boom" ∧
    (get_training_status exStateFailed "train_ab12cd34").map (fun v => v.error)
      = some none := by
  refine ⟨rfl, rfl, by decide⟩

/-- Claim C4 as amended: `get_training_status` never surfaces the `error`
field at all — the active-jobs entry has no `error` key and the durable-scan
projection builds none either — so every returned record has an absent
`error`, on both lookup paths; the captured description lives only in the
durable `metadata.json` file itself. -/
theorem C4_amended_error_absent_from_status
    (s : ServiceState) (tid : String) (v : StatusView)
    (h : get_training_status s tid = some v) : v.error = none := by
  unfold get_training_status scanStore at h
  cases hj : alistLookup s.active_jobs tid with
  | some j =>
      rw [hj] at h
      dsimp only at h
      injection h with h
      rw [← h]
      rfl
  | none =>
      rw [hj] at h
      dsimp only at h
      cases hf : s.store.find?
          (fun e => e.2.custom_metadata.training_id == some tid) with
      | some rec =>
          rw [hf] at h
          dsimp only at h
          injection h with h
          rw [← h]
          rfl
      | none =>
          rw [hf] at h
          exact Option.noConfusion h

/-- Witness for the amended C4 at the concrete failed job. -/
theorem C4_amended_error_absent_from_status_witness :
    get_training_status exStateFailed "train_ab12cd34"
      = some (viewFromMetadata "train_ab12cd34" exMetadataFailed) ∧
    (viewFromMetadata "train_ab12cd34" exMetadataFailed).error = none :=
  ⟨by decide, C4_amended_error_absent_from_status exStateFailed "train_ab12cd34"
    (viewFromMetadata "train_ab12cd34" exMetadataFailed) (by decide)⟩

/-! ## Claim C5 -/

/-- Claim C5 counterexample: the claim asserts that creating a job at a
`(user_id, model_identifier)` location that already holds a durable record
fails without overwriting.  At this concrete state a record for
`train_ab12cd34` already exists at the location, yet the create path
(`save_training_images`, as invoked by `main.train_model`) succeeds and
replaces it with a fresh record for `train_ff99aa00`. -/
theorem C5_create_fails_on_existing_counterexample :
    alistLookup exStateCompleted.store ("user_123", "aurel_person")
      = some exMetadataCompleted ∧
    exCustomMetadataCompleted.training_id = some "train_ab12cd34" ∧
    (alistLookup (save_training_images exStateCompleted.store "user_123"
        "aurel_person" [("a.png", 5)]
        (some (initialCustomMetadata "train_ff99aa00")) "T5").1
        ("user_123", "aurel_person")).map
        (fun r => r.custom_metadata.training_id)
      = some (some "train_ff99aa00") := by
  refine ⟨rfl, rfl, by decide⟩

/-- Claim C5 as amended: `save_training_images` performs no existence check;
at a location that already holds a record it succeeds and replaces the stored
record with the freshly built one (the previous history is overwritten). -/
theorem C5_amended_create_overwrites
    (store : List ((String × String) × Metadata)) (u m : String)
    (images : List (String × Nat)) (meta : Option CustomMetadata)
    (now : String) (old : Metadata)
    (h : alistLookup store (u, m) = some old) :
    alistLookup (save_training_images store u m images meta now).1 (u, m)
      = some (buildTrainingMetadata u m images meta now) := by
  unfold save_training_images
  dsimp only
  exact alistLookup_insert_self ..

/-- Witness for the amended C5 at the concrete occupied location. -/
theorem C5_amended_create_overwrites_witness :
    alistLookup exStateCompleted.store ("user_123", "aurel_person")
      = some exMetadataCompleted ∧
    alistLookup (save_training_images exStateCompleted.store "user_123"
        "aurel_person" [("a.png", 5)]
        (some (initialCustomMetadata "train_ff99aa00")) "T5").1
        ("user_123", "aurel_person")
      = some (buildTrainingMetadata "user_123" "aurel_person" [("a.png", 5)]
          (some (initialCustomMetadata "train_ff99aa00")) "T5") :=
  ⟨rfl, C5_amended_create_overwrites exStateCompleted.store "user_123"
    "aurel_person" [("a.png", 5)] (some (initialCustomMetadata "train_ff99aa00"))
    "T5" exMetadataCompleted rfl⟩

/-! ## Claim C6 -/

/-- Claim C6: when loading a model identifier fails, `load_model` retries
exactly once using the configured fallback identifier (for a non-fallback
identifier), and a failure of the fallback itself yields a load error with no
further retry: the whole result is determined by the single fallback attempt. -/
theorem C6_fallback_bounded
    (attempt : String → Option String) (m e : String) (h : attempt m = some e) :
    load_model attempt m =
      if m = FALLBACK_MODEL_ID then
        Except.error ("Failed to load model " ++ m ++ ": " ++ e)
      else
        match attempt FALLBACK_MODEL_ID with
        | none => Except.ok { loaded_from := FALLBACK_MODEL_ID }
        | some e2 =>
            Except.error ("Failed to load model " ++ FALLBACK_MODEL_ID ++ ": " ++ e2) := by
  by_cases hm : m = FALLBACK_MODEL_ID
  · rw [if_pos hm]
    subst hm
    exact load_model_fallback_fails attempt e h
  · rw [if_neg hm, load_model_fallback attempt m e h hm]
    cases hf : attempt FALLBACK_MODEL_ID with
    | none => exact load_model_ok attempt FALLBACK_MODEL_ID hf
    | some e2 => exact load_model_fallback_fails attempt e2 hf

/-- Witness for C6 with an oracle under which every load raises: the call on
a non-fallback identifier fails with the fallback's load error after the one
retry. -/
theorem C6_fallback_bounded_witness :
    attemptAlwaysFails "nonexistent/model" = some "boom" ∧
    load_model attemptAlwaysFails "nonexistent/model" =
      Except.error ("Failed to load model " ++ FALLBACK_MODEL_ID ++ ": " ++ "boom") := by
  refine ⟨rfl, ?_⟩
  rw [C6_fallback_bounded attemptAlwaysFails "nonexistent/model" "boom" rfl]
  rfl

/-! ## Claim C3 -/

/-- Claim C3 counterexample: the claim asserts that when the requested
identifier fails to load and the fallback succeeds, the identifier returned
to the caller equals the fallback.  Under the oracle where only the fallback
loads, `get_or_load_model` for user `default` loads the handle from the
fallback but still returns (and caches under) `DEFAULT_MODEL_ID`, the
originally requested identifier, which differs from the fallback. -/
theorem C3_fallback_id_reported_counterexample :
    get_or_load_model attemptFallbackOnly [] "default" =
      Except.ok ([(DEFAULT_MODEL_ID, { loaded_from := FALLBACK_MODEL_ID })],
                 { loaded_from := FALLBACK_MODEL_ID }, DEFAULT_MODEL_ID) ∧
    DEFAULT_MODEL_ID ≠ FALLBACK_MODEL_ID := by
  constructor
  · have hload : load_model attemptFallbackOnly (get_model_id "default")
        = Except.ok { loaded_from := FALLBACK_MODEL_ID } := by
      have h1 : get_model_id "default" = DEFAULT_MODEL_ID := rfl
      rw [h1, load_model_fallback attemptFallbackOnly DEFAULT_MODEL_ID
        "not found" (by decide) (by decide)]
      exact load_model_ok attemptFallbackOnly FALLBACK_MODEL_ID (by decide)
    rw [get_or_load_model_miss attemptFallbackOnly [] "default"
      { loaded_from := FALLBACK_MODEL_ID } rfl hload]
    rfl
  · decide

/-- Claim C3 as amended: whatever handle the load produced (possibly via the
fallback substitution inside `load_model`), the model identifier
`get_or_load_model` returns alongside it is always the resolved *requested*
identifier `get_model_id user_id` — the substitution is not reported. -/
theorem C3_amended_requested_id_reported
    (attempt : String → Option String) (cache : List (String × Pipe))
    (u : String) (r : List (String × Pipe) × Pipe × String)
    (h : get_or_load_model attempt cache u = Except.ok r) :
    r.2.2 = get_model_id u := by
  unfold get_or_load_model at h
  dsimp only at h
  cases hc : alistLookup cache (get_model_id u) with
  | some pipe =>
      rw [hc] at h
      dsimp only at h
      injection h with h
      rw [← h]
  | none =>
      rw [hc] at h
      dsimp only at h
      cases hl : load_model attempt (get_model_id u) with
      | ok pipe =>
          rw [hl] at h
          dsimp only at h
          injection h with h
          rw [← h]
      | error e =>
          rw [hl] at h
          exact Except.noConfusion h

/-- Witness for the amended C3 at a concrete cache hit. -/
theorem C3_amended_requested_id_reported_witness :
    get_or_load_model attemptAlwaysFails cacheWithDefault "default" =
      Except.ok (cacheWithDefault, { loaded_from := DEFAULT_MODEL_ID },
        DEFAULT_MODEL_ID) ∧
    (cacheWithDefault, Pipe.mk DEFAULT_MODEL_ID, DEFAULT_MODEL_ID).2.2
      = get_model_id "default" :=
  ⟨rfl, C3_amended_requested_id_reported attemptAlwaysFails cacheWithDefault
    "default" (cacheWithDefault, Pipe.mk DEFAULT_MODEL_ID, DEFAULT_MODEL_ID) rfl⟩

/-! ## Claim C8 -/

/-- Claim C8: after one successful `get_or_load_model` call returning cache
`cache2`, handle `p` and identifier `id`, a second call for the same user on
`cache2` (with no intervening `clear_cache`) returns the identical handle and
identifier and leaves the cache untouched, no load performed: the second
result is the same under *every* load oracle, so no load attempt is even
consulted. -/
theorem C8_cache_hit_idempotent
    (attempt : String → Option String) (cache : List (String × Pipe))
    (u : String) (cache2 : List (String × Pipe)) (p : Pipe) (id : String)
    (h : get_or_load_model attempt cache u = Except.ok (cache2, p, id)) :
    ∀ attempt2 : String → Option String,
      get_or_load_model attempt2 cache2 u = Except.ok (cache2, p, id) := by
  intro attempt2
  unfold get_or_load_model at h
  dsimp only at h
  cases hc : alistLookup cache (get_model_id u) with
  | some q =>
      rw [hc] at h
      dsimp only at h
      injection h with h
      injection h with h1 h
      injection h with h2 h3
      subst h1; subst h2; subst h3
      exact get_or_load_model_hit attempt2 cache u q hc
  | none =>
      rw [hc] at h
      dsimp only at h
      cases hl : load_model attempt (get_model_id u) with
      | ok q =>
          rw [hl] at h
          dsimp only at h
          injection h with h
          injection h with h1 h
          injection h with h2 h3
          subst h1; subst h2; subst h3
          exact get_or_load_model_hit attempt2 _ u q
            (alistLookup_insert_self cache (get_model_id u) q)
      | error e =>
          rw [hl] at h
          exact Except.noConfusion h

/-- Witness for C8: the second call returns the identical handle even under
an oracle where every load raises, exhibiting that no load is performed. -/
theorem C8_cache_hit_idempotent_witness :
    get_or_load_model attemptAlwaysFails cacheWithDefault "default" =
      Except.ok (cacheWithDefault, { loaded_from := DEFAULT_MODEL_ID },
        DEFAULT_MODEL_ID) ∧
    get_or_load_model attemptFallbackOnly cacheWithDefault "default" =
      Except.ok (cacheWithDefault, { loaded_from := DEFAULT_MODEL_ID },
        DEFAULT_MODEL_ID) :=
  ⟨rfl, C8_cache_hit_idempotent attemptAlwaysFails cacheWithDefault "default"
    cacheWithDefault { loaded_from := DEFAULT_MODEL_ID } DEFAULT_MODEL_ID rfl
    attemptFallbackOnly⟩

/-! ## Claim C7 -/

/-- Every progress value emitted inside the DreamBooth training loop lies in
`[40, 90]`: the scaled term `(global_step * 50) / num_steps` is at most 50
because `global_step ≤ num_steps`. -/
theorem dreamboothLoopProgress_mem (n p : Nat)
    (hp : p ∈ dreamboothLoopProgress n) : 40 ≤ p ∧ p ≤ 90 := by
  unfold dreamboothLoopProgress at hp
  rw [List.mem_filterMap] at hp
  obtain ⟨i, hi, hcond⟩ := hp
  rw [List.mem_range] at hi
  split at hcond
  · injection hcond with hcond
    subst hcond
    have hdiv : (i + 1) * 50 / n ≤ 50 := by
      have h1 : (i + 1) * 50 ≤ n * 50 := Nat.mul_le_mul_right 50 (by omega)
      have h2 : (i + 1) * 50 / n ≤ n * 50 / n := Nat.div_le_div_right h1
      rwa [Nat.mul_div_cancel_left 50 (by omega)] at h2
    exact ⟨Nat.le_add_right 40 _,
      Nat.le_trans (Nat.add_le_add_left hdiv 40) (by decide)⟩
  · exact absurd hcond (by simp)

/-- The in-loop progress values are emitted in non-decreasing order: the
scaled term is monotone in `global_step`. -/
theorem dreamboothLoopProgress_pairwise (n : Nat) :
    List.Pairwise (· ≤ ·) (dreamboothLoopProgress n) := by
  unfold dreamboothLoopProgress
  rw [List.pairwise_filterMap]
  refine (List.pairwise_lt_range n).imp ?_
  intro i j hij b hb b' hb'
  split at hb
  · split at hb'
    · simp only [Option.mem_def, Option.some.injEq] at hb hb'
      subst hb
      subst hb'
      have hmono : (i + 1) * 50 / n ≤ (j + 1) * 50 / n :=
        Nat.div_le_div_right (Nat.mul_le_mul_right 50 (by omega))
      omega
    · simp at hb'
  · simp at hb

/-- Claim C7: across the successive `update_training_status` calls issued by
`start_training` on the DreamBooth path, the progress values of the updates
issued while the status is `running` are monotonically non-decreasing and lie
in `[0, 100]` (values are naturals, so only the upper bound is substantive),
and the terminal update of the successful run is `("completed", 100)`. -/
theorem C7_running_progress_monotone (num_steps : Nat) :
    List.Pairwise (· ≤ ·) (startTrainingRunningProgress num_steps)
    ∧ (∀ p ∈ startTrainingRunningProgress num_steps, p ≤ 100)
    ∧ (startTrainingStatusUpdates num_steps).getLast? = some ("completed", 100) := by
  refine ⟨?_, ?_, ?_⟩
  · unfold startTrainingRunningProgress
    rw [List.pairwise_append]
    refine ⟨?_, by decide, ?_⟩
    · rw [List.pairwise_append]
      refine ⟨by decide, dreamboothLoopProgress_pairwise num_steps, ?_⟩
      intro a ha b hb
      have ha40 : a ≤ 40 := by
        simp only [List.mem_cons, List.not_mem_nil, or_false] at ha
        rcases ha with h | h | h | h | h | h <;> omega
      have := dreamboothLoopProgress_mem num_steps b hb
      omega
    · intro a ha b hb
      simp only [List.mem_singleton] at hb
      rcases List.mem_append.mp ha with ha | ha
      · have ha40 : a ≤ 40 := by
          simp only [List.mem_cons, List.not_mem_nil, or_false] at ha
          rcases ha with h | h | h | h | h | h <;> omega
        omega
      · have := dreamboothLoopProgress_mem num_steps a ha
        omega
  · intro p hp
    unfold startTrainingRunningProgress at hp
    rcases List.mem_append.mp hp with hp | hp
    · rcases List.mem_append.mp hp with hp | hp
      · simp only [List.mem_cons, List.not_mem_nil, or_false] at hp
        rcases hp with h | h | h | h | h | h <;> omega
      · have := dreamboothLoopProgress_mem num_steps p hp
        omega
    · simp only [List.mem_singleton] at hp
      omega
  · unfold startTrainingStatusUpdates
    exact List.getLast?_concat _
